import Mathlib

/-
  Verification development for the enterprise-catalog slice:
  - enterprise_catalog/apps/api/v1/serializers.py
      (find_and_modify_catalog_query, ContentMetadataSerializer)
  - enterprise_catalog/apps/api/v1/export_utils.py
      (course_hit_to_row, program_hit_to_row, course_run_to_row, facets_to_query)

  The Python code is shallowly embedded: JSON-ish Python values become the
  inductive `PyVal`; dictionaries are insertion-ordered association lists;
  fallible operations (subscripting a missing key, joining non-strings, ...)
  return `Except PyErr`; the ORM-backed resolver becomes explicit state
  passing over a `CatalogDB` value.
-/

set_option maxHeartbeats 1000000

/-- The single-quote character, used when building modelled database error
messages in the MySQL shape that the regular expression in
`find_and_modify_catalog_query` expects. -/
def sqm : String := String.singleton (Char.ofNat 39)

/-- Errors raised by the embedded Python operations. -/
inductive PyErr where
  | keyError (k : String)
  | typeError
  | indexError
  | valueError
deriving DecidableEq, Repr

/-- JSON-ish Python values as they appear in `json_metadata` blobs and Algolia
search hits: `None`, booleans, strings, integers, lists and (insertion-ordered)
string-keyed dictionaries. -/
inductive PyVal where
  | none
  | bool (b : Bool)
  | str (s : String)
  | int (n : Int)
  | list (xs : List PyVal)
  | dict (kvs : List (String × PyVal))
deriving Repr

/-- Python truthiness: `None`, `False`, `""`, `0`, `[]` and the empty dict are
falsy; everything else is truthy. -/
def truthy : PyVal → Bool
  | .none => false
  | .bool b => b
  | .str s => !(s == "")
  | .int n => !(n == 0)
  | .list xs => !xs.isEmpty
  | .dict kvs => !kvs.isEmpty

/-- First binding of key `k` in an association list (Python dict keys are
unique, so the first binding is the binding). -/
def dictLookup : List (String × PyVal) → String → Option PyVal
  | [], _ => Option.none
  | kv :: rest, k => if kv.1 == k then some kv.2 else dictLookup rest k

/-- Python dict assignment `d[k] = v`: an existing key keeps its position and
gets the new value; a new key is appended at the end. -/
def dictSet : List (String × PyVal) → String → PyVal → List (String × PyVal)
  | [], k, v => [(k, v)]
  | kv :: rest, k, v => if kv.1 == k then (k, v) :: rest else kv :: dictSet rest k v

/-- Python `d.get(k, default)`. Raises `TypeError` when the receiver is not a
dict (Python raises `AttributeError`; the embedding uses a single error
constructor for not-a-dict misuses). -/
def pyGetD (v : PyVal) (k : String) (default : PyVal) : Except PyErr PyVal :=
  match v with
  | .dict kvs => .ok ((dictLookup kvs k).getD default)
  | _ => .error .typeError

/-- Python `d.get(k)` (default `None`). -/
def pyGet (v : PyVal) (k : String) : Except PyErr PyVal :=
  pyGetD v k PyVal.none

/-- Python dict subscript `d[k]`: raises `KeyError` when the key is absent. -/
def pySub (v : PyVal) (k : String) : Except PyErr PyVal :=
  match v with
  | .dict kvs =>
    match dictLookup kvs k with
    | some x => .ok x
    | Option.none => .error (.keyError k)
  | _ => .error .typeError

/-- Python sequence subscript `xs[i]`. -/
def pyIndex (v : PyVal) (i : Nat) : Except PyErr PyVal :=
  match v with
  | .list xs =>
    match xs.get? i with
    | some x => .ok x
    | Option.none => .error .indexError
  | .str s =>
    match s.data.get? i with
    | some c => .ok (.str (String.singleton c))
    | Option.none => .error .indexError
  | _ => .error .typeError

/-- Coerce to a string value, as operations like `dateutil.parser.parse`
require; non-strings raise `TypeError`. -/
def asStr : PyVal → Except PyErr String
  | .str s => .ok s
  | _ => .error .typeError

/-- Coerce to an integer, as `datetime.datetime.fromtimestamp` requires;
Python booleans are integers. -/
def asInt : PyVal → Except PyErr Int
  | .int n => .ok n
  | .bool b => .ok (if b then 1 else 0)
  | _ => .error .typeError

/-- Python iteration: lists yield elements, strings yield one-character
strings, dicts yield their keys; other values are not iterable. -/
def pyIter : PyVal → Except PyErr (List PyVal)
  | .list xs => .ok xs
  | .str s => .ok (s.data.map fun c => .str (String.singleton c))
  | .dict kvs => .ok (kvs.map fun kv => PyVal.str kv.1)
  | _ => .error .typeError

/-- Require every element to be a string, as `", ".join(...)` does. -/
def allStrs : List PyVal → Except PyErr (List String)
  | [] => .ok []
  | .str s :: rest =>
    match allStrs rest with
    | .error e => .error e
    | .ok ss => .ok (s :: ss)
  | _ :: _ => .error .typeError

/-- Python `", ".join(v)` over an iterable of strings. -/
def pyJoinComma (v : PyVal) : Except PyErr String :=
  match pyIter v with
  | .error e => .error e
  | .ok items =>
    match allStrs items with
    | .error e => .error e
    | .ok ss => .ok (String.intercalate ", " ss)

/-- The list comprehension `[item[k] for item in items]` (direct subscript:
an entry missing the key raises `KeyError`). -/
def collectSub : List PyVal → String → Except PyErr (List PyVal)
  | [], _ => .ok []
  | item :: rest, k =>
    match pySub item k with
    | .error e => .error e
    | .ok v =>
      match collectSub rest k with
      | .error e => .error e
      | .ok vs => .ok (v :: vs)

/-- Python `len(v)` for sized values. -/
def pyLen : PyVal → Except PyErr Int
  | .list xs => .ok xs.length
  | .str s => .ok s.length
  | .dict kvs => .ok kvs.length
  | _ => .error .typeError

/-- Python `str(v)`. Container renderings are abbreviated; the embedded code
only applies this to strings and scalars. -/
def pyStrOf : PyVal → String
  | .none => "None"
  | .bool b => if b then "True" else "False"
  | .str s => s
  | .int n => toString n
  | .list _ => "[...]"
  | .dict _ => "dict"

/-- Tag-stripping scanner for `django.utils.html.strip_tags` on well-formed
markup: characters between an opening angle bracket and the next closing one
are dropped. -/
def stripTagsAux : List Char → Bool → List Char
  | [], _ => []
  | c :: cs, inTag =>
    if inTag then
      if c == Char.ofNat 62 then stripTagsAux cs false else stripTagsAux cs true
    else
      if c == Char.ofNat 60 then stripTagsAux cs true else c :: stripTagsAux cs false

/-- Embeds `django.utils.html.strip_tags`: coerces to `str` (done by callers via
`pyStrOf`) and removes markup tags. -/
def strip_tags (s : String) : String := String.mk (stripTagsAux s.data false)

/-- Embeds `dateutil.parser.parse(s).strftime("%Y-%m-%d")` on ISO-8601-prefixed
inputs: the leading `YYYY-MM-DD` prefix is validated and returned; inputs not
of that shape are rejected (dateutil raises on unparsable input). -/
def parseToYMD (s : String) : Except PyErr String :=
  match s.data with
  | a :: b :: c :: d :: d1 :: e :: f :: d2 :: g :: i :: _ =>
    if [a, b, c, d, e, f, g, i].all Char.isDigit && d1 == Char.ofNat 45 && d2 == Char.ofNat 45 then
      .ok (String.mk [a, b, c, d, d1, e, f, d2, g, i])
    else .error .valueError
  | _ => .error .valueError

/-- Zero-padded decimal rendering of width 2. -/
def pad2 (n : Int) : String :=
  if n < 10 then "0" ++ toString n else toString n

/-- Zero-padded decimal rendering of width 4. -/
def pad4 (n : Int) : String :=
  if n < 10 then "000" ++ toString n
  else if n < 100 then "00" ++ toString n
  else if n < 1000 then "0" ++ toString n
  else toString n

/-- Embeds `datetime.datetime.fromtimestamp(t).strftime("%Y-%m-%d")` in UTC: the
standard civil-from-days calendar conversion applied to a unix timestamp. -/
def timestampToYMD (t : Int) : String :=
  let days := t.fdiv 86400
  let z := days + 719468
  let era := z.fdiv 146097
  let doe := z - era * 146097
  let yoe := (doe - doe / 1460 + doe / 36524 - doe / 146096) / 365
  let y := yoe + era * 400
  let doy := doe - (365 * yoe + yoe / 4 - yoe / 100)
  let mp := (5 * doy + 2) / 153
  let d := doy - (153 * mp + 2) / 5 + 1
  let m := mp + (if mp < 10 then 3 else -9)
  let y := y + (if m ≤ 2 then 1 else 0)
  pad4 y ++ "-" ++ pad2 m ++ "-" ++ pad2 d

/-
  export_utils.py: facet query extraction.
  A request parameter bag (`querydict_to_dict` output) maps each key to the
  list of its values; it is embedded as an insertion-ordered association list.
-/

/-- Lookup in a parameter bag (`facets.get(k)` yields the value list when the
key is present). -/
def bagGet (bag : List (String × List String)) (k : String) : Option (List String) :=
  match bag with
  | [] => Option.none
  | kv :: rest => if kv.1 == k then some kv.2 else bagGet rest k

/-- Python `dict.pop(k)`: the bag with the binding of `k` removed. -/
def bagErase (bag : List (String × List String)) (k : String) : List (String × List String) :=
  match bag with
  | [] => []
  | kv :: rest => if kv.1 == k then rest else kv :: bagErase rest k

/-- Embeds `export_utils.facets_to_query`: prefer a truthy `query` value list, else a
truthy `q` value list, else the empty string; a used key is popped from the
bag, and the first element of its value list is returned. -/
def facets_to_query (facets : List (String × List String)) :
    String × List (String × List String) :=
  match bagGet facets "query" with
  | some (v :: _) => (v, bagErase facets "query")
  | _ =>
    match bagGet facets "q" with
    | some (v :: _) => (v, bagErase facets "q")
    | _ => ("", facets)

/-
  export_utils.py: CSV row projections.
-/

/-- Embeds `export_utils.CSV_COURSE_HEADERS` (the apostrophe in the second-to-last
header is the U+2019 right single quotation mark used by the source). -/
def CSV_COURSE_HEADERS : List String :=
  ["Title", "Partner Name", "Start", "End", "Verified Upgrade Deadline",
   "Program Type", "Program Name", "Pacing", "Level", "Price", "Language",
   "URL", "Short Description", "Subjects", "Key", "Short Key", "Skills",
   "Min Effort", "Max Effort", "Length",
   "What You" ++ String.singleton (Char.ofNat 8217) ++ "ll Learn",
   "Pre-requisites"]

/-- Embeds `export_utils.CSV_PROGRAM_HEADERS`. -/
def CSV_PROGRAM_HEADERS : List String :=
  ["Title", "Program Type", "Partner", "Short Description", "Number of courses"]

/-- Embeds `export_utils.CSV_COURSE_RUN_HEADERS`. -/
def CSV_COURSE_RUN_HEADERS : List String :=
  ["Title", "Key", "Course Short Key", "Pacing", "Availability", "Start Date",
   "End Date", "Verified Upgrade Deadline", "Min Effort", "Max Effort", "Length"]

/-- Embeds `export_utils.course_hit_to_row`: projects a single Algolia course hit to
a CSV row.  The nested matches follow the source statement by statement: each
`csv_row.append(...)` contributes one cell to the final list, and the cells
come from the same lookups, in the same order, as the source.  Note the three
direct subscripts inherited from the source: `partners[0]["name"]`,
`advertised_course_run["pacing_type"]` and `skill["name"]` raise `KeyError`
when the key is absent, while every other extraction uses `.get`. -/
def course_hit_to_row (hit : PyVal) : Except PyErr (List PyVal) :=
  match pyGet hit "title" with
  | .error e => .error e
  | .ok title =>
  match pyGet hit "partners" with
  | .error e => .error e
  | .ok partnersV =>
  match (if truthy partnersV then
           match pySub hit "partners" with
           | .error e => .error e
           | .ok pv =>
             match pyIndex pv 0 with
             | .error e => .error e
             | .ok p0 => pySub p0 "name"
         else .ok PyVal.none : Except PyErr PyVal) with
  | .error e => .error e
  | .ok partnerCell =>
  match pyGet hit "advertised_course_run" with
  | .error e => .error e
  | .ok acr =>
  match ((if truthy acr then
           match pyGet acr "start" with
           | .error e => .error e
           | .ok sv =>
           match (if truthy sv then
                    match asStr sv with
                    | .error e => .error e
                    | .ok s =>
                      match parseToYMD s with
                      | .error e => .error e
                      | .ok d => .ok (PyVal.str d)
                  else .ok PyVal.none : Except PyErr PyVal) with
           | .error e => .error e
           | .ok startCell =>
           match pyGet acr "end" with
           | .error e => .error e
           | .ok ev =>
           match (if truthy ev then
                    match asStr ev with
                    | .error e => .error e
                    | .ok s =>
                      match parseToYMD s with
                      | .error e => .error e
                      | .ok d => .ok (PyVal.str d)
                  else .ok PyVal.none : Except PyErr PyVal) with
           | .error e => .error e
           | .ok endCell =>
           match pyGet acr "upgrade_deadline" with
           | .error e => .error e
           | .ok uv =>
           match (if truthy uv then
                    match pySub acr "upgrade_deadline" with
                    | .error e => .error e
                    | .ok raw =>
                      match asInt raw with
                      | .error e => .error e
                      | .ok t => .ok (PyVal.str (timestampToYMD t))
                  else .ok PyVal.none : Except PyErr PyVal) with
           | .error e => .error e
           | .ok upCell =>
           match pySub hit "advertised_course_run" with
           | .error e => .error e
           | .ok acr2 =>
           match pySub acr2 "pacing_type" with
           | .error e => .error e
           | .ok pacingCell =>
           match pyGet acr "key" with
           | .error e => .error e
           | .ok keyCell => .ok (startCell, endCell, upCell, pacingCell, keyCell)
         else .ok (PyVal.none, PyVal.none, PyVal.none, PyVal.none, PyVal.none))
        : Except PyErr (PyVal × PyVal × PyVal × PyVal × PyVal)) with
  | .error e => .error e
  | .ok (startCell, endCell, upCell, pacingCell, keyCell) =>
  match pyGetD hit "programs" (.list []) with
  | .error e => .error e
  | .ok programsV =>
  match pyJoinComma programsV with
  | .error e => .error e
  | .ok programsStr =>
  match pyGetD hit "program_titles" (.list []) with
  | .error e => .error e
  | .ok titlesV =>
  match pyJoinComma titlesV with
  | .error e => .error e
  | .ok titlesStr =>
  match pyGet hit "level_type" with
  | .error e => .error e
  | .ok levelCell =>
  match pyGet hit "first_enrollable_paid_seat_price" with
  | .error e => .error e
  | .ok priceCell =>
  match pyGet hit "language" with
  | .error e => .error e
  | .ok langCell =>
  match pyGet hit "marketing_url" with
  | .error e => .error e
  | .ok urlCell =>
  match pyGetD hit "short_description" (.str "") with
  | .error e => .error e
  | .ok sdV =>
  match pyGetD hit "subjects" (.list []) with
  | .error e => .error e
  | .ok subjectsV =>
  match pyJoinComma subjectsV with
  | .error e => .error e
  | .ok subjectsStr =>
  match pyGet hit "aggregation_key" with
  | .error e => .error e
  | .ok aggCell =>
  match pyGetD hit "skills" (.list []) with
  | .error e => .error e
  | .ok skillsV =>
  match pyIter skillsV with
  | .error e => .error e
  | .ok skillItems =>
  match collectSub skillItems "name" with
  | .error e => .error e
  | .ok skillNames =>
  match allStrs skillNames with
  | .error e => .error e
  | .ok skillStrs =>
  match pyGetD hit "advertised_course_run" (.dict []) with
  | .error e => .error e
  | .ok acrD =>
  match pyGet acrD "min_effort" with
  | .error e => .error e
  | .ok minCell =>
  match pyGet acrD "max_effort" with
  | .error e => .error e
  | .ok maxCell =>
  match pyGet acrD "weeks_to_complete" with
  | .error e => .error e
  | .ok lenCell =>
  match pyGetD hit "outcome" (.str "") with
  | .error e => .error e
  | .ok outV =>
  match pyGetD hit "prerequisites_raw" (.str "") with
  | .error e => .error e
  | .ok preV =>
    .ok [title, partnerCell, startCell, endCell, upCell,
         .str programsStr, .str titlesStr, pacingCell, levelCell, priceCell,
         langCell, urlCell, .str (strip_tags (pyStrOf sdV)), .str subjectsStr,
         keyCell, aggCell, .str (String.intercalate ", " skillStrs),
         minCell, maxCell, lenCell, .str (strip_tags (pyStrOf outV)),
         .str (strip_tags (pyStrOf preV))]

/-- Embeds `export_utils.program_hit_to_row`: projects a single Algolia program hit
to a CSV row.  `partner["name"]` is a direct subscript, as in the source. -/
def program_hit_to_row (hit : PyVal) : Except PyErr (List PyVal) :=
  match pyGet hit "title" with
  | .error e => .error e
  | .ok title =>
  match pyGet hit "program_type" with
  | .error e => .error e
  | .ok ptype =>
  match pyGetD hit "partners" (.list []) with
  | .error e => .error e
  | .ok partnersV =>
  match pyIter partnersV with
  | .error e => .error e
  | .ok partnerItems =>
  match collectSub partnerItems "name" with
  | .error e => .error e
  | .ok partnerNames =>
  match allStrs partnerNames with
  | .error e => .error e
  | .ok partnerStrs =>
  match pyGet hit "subtitle" with
  | .error e => .error e
  | .ok subtitle =>
  match pyGetD hit "course_keys" (.list []) with
  | .error e => .error e
  | .ok cksV =>
  match pyLen cksV with
  | .error e => .error e
  | .ok n =>
    .ok [title, ptype, .str (String.intercalate ", " partnerStrs), subtitle, .int n]

/-- Embeds `export_utils.course_run_to_row`: projects a single course run (nested
under a course hit) to a CSV row, carrying the parent course key and title.
All lookups use `.get`. -/
def course_run_to_row (course_key course_title course_run : PyVal) :
    Except PyErr (List PyVal) :=
  match pyGet course_run "key" with
  | .error e => .error e
  | .ok keyCell =>
  match pyGet course_run "pacing_type" with
  | .error e => .error e
  | .ok pacingCell =>
  match pyGet course_run "availability" with
  | .error e => .error e
  | .ok availCell =>
  match pyGet course_run "start" with
  | .error e => .error e
  | .ok sv =>
  match (if truthy sv then
           match asStr sv with
           | .error e => .error e
           | .ok s =>
             match parseToYMD s with
             | .error e => .error e
             | .ok d => .ok (PyVal.str d)
         else .ok PyVal.none : Except PyErr PyVal) with
  | .error e => .error e
  | .ok startCell =>
  match pyGet course_run "end" with
  | .error e => .error e
  | .ok ev =>
  match (if truthy ev then
           match asStr ev with
           | .error e => .error e
           | .ok s =>
             match parseToYMD s with
             | .error e => .error e
             | .ok d => .ok (PyVal.str d)
         else .ok PyVal.none : Except PyErr PyVal) with
  | .error e => .error e
  | .ok endCell =>
  match pyGet course_run "upgrade_deadline" with
  | .error e => .error e
  | .ok uv =>
  match (if truthy uv then
           match pyGet course_run "upgrade_deadline" with
           | .error e => .error e
           | .ok raw =>
             match asInt raw with
             | .error e => .error e
             | .ok t => .ok (PyVal.str (timestampToYMD t))
         else .ok PyVal.none : Except PyErr PyVal) with
  | .error e => .error e
  | .ok upCell =>
  match pyGet course_run "min_effort" with
  | .error e => .error e
  | .ok minCell =>
  match pyGet course_run "max_effort" with
  | .error e => .error e
  | .ok maxCell =>
  match pyGet course_run "weeks_to_complete" with
  | .error e => .error e
  | .ok lenCell =>
    .ok [course_title, keyCell, course_key, pacingCell, availCell,
         startCell, endCell, upCell, minCell, maxCell, lenCell]

/-
  serializers.py: the catalog query resolver `find_and_modify_catalog_query`.
  The relational store is embedded as an explicit `CatalogDB` value; the
  Django ORM calls used by the source (`get`, `save`, `update_or_create`,
  `get_or_create`) are embedded with their documented semantics.
-/

/-- A content filter: a mapping of filter keys to values. -/
abbrev ContentFilter : Type := List (String × String)

/-- Insertion sort of filter entries by key, for canonical serialization. -/
def insertByKey (kv : String × String) : ContentFilter → ContentFilter
  | [] => [kv]
  | kv2 :: rest =>
    if kv.1 ≤ kv2.1 then kv :: kv2 :: rest else kv2 :: insertByKey kv rest

/-- Sort a content filter by key. -/
def sortFilter : ContentFilter → ContentFilter
  | [] => []
  | kv :: rest => insertByKey kv (sortFilter rest)

/-- Canonical serialization of a content filter: sorted-key rendering, as a
character sequence. -/
def canonicalSerialization (cf : ContentFilter) : List Char :=
  (sortFilter cf).foldl (fun acc kv => acc ++ kv.1.data ++ ['='] ++ kv.2.data ++ [';']) []

/-- Modelled from the spec: `get_content_filter_hash`
(`enterprise_catalog/apps/catalog/utils.py`, not under `src/`) computes a
stable hash of the canonical (sorted-key) serialization of the filter.  The
hash is modelled as a character-code checksum so that the hash collisions the
spec calls pathological but possible remain exhibitable. -/
def get_content_filter_hash (cf : ContentFilter) : Nat :=
  (canonicalSerialization cf).foldl (fun a c => a + c.toNat) 0

/-- A persisted `CatalogQuery` row: surrogate id, optional external uuid, the
raw content filter, its hash, an optional title, and the exec-ed inclusion
flag.  The natural key is `(content_filter_hash, include_exec_ed_2u_courses)`. -/
structure CatalogQuery where
  id : Nat
  uuid : Option String
  content_filter : ContentFilter
  content_filter_hash : Nat
  title : Option String
  include_exec_ed_2u_courses : Bool
deriving DecidableEq, Repr

/-- The `CatalogQuery` table: rows plus the next surrogate id. -/
structure CatalogDB where
  rows : List CatalogQuery
  next_id : Nat
deriving DecidableEq, Repr

/-- Modelled from the spec: `CatalogQuery.get_by_uuid`
(`enterprise_catalog/apps/catalog/models.py`, not under `src/`) looks up an
existing row by its external uuid, yielding nothing when absent. -/
def get_by_uuid (db : CatalogDB) (u : String) : Option CatalogQuery :=
  db.rows.find? fun r => r.uuid == some u

/-- Does some other row already occupy `q`'s natural key?  This is the
uniqueness constraint on `(content_filter_hash, include_exec_ed_2u_courses)`
enforced by the store. -/
def natural_key_conflict (db : CatalogDB) (q : CatalogQuery) : Bool :=
  db.rows.any fun r =>
    !(r.id == q.id) && r.content_filter_hash == q.content_filter_hash
      && r.include_exec_ed_2u_courses == q.include_exec_ed_2u_courses

/-- The integrity failure surfaced by the store on a uniqueness violation. -/
structure IntegrityError where
  msg : String
deriving DecidableEq, Repr

/-- The duplicate-entry message produced by the store on a natural-key
violation, in the MySQL shape (`... for key '<column>'`) that the regular
expression in `find_and_modify_catalog_query` parses. -/
def duplicate_entry_message : String :=
  "Duplicate entry for key " ++ sqm ++ "content_filter_hash" ++ sqm

/-- Embeds `save()` on an existing row: replaces the row with the same id, unless the
natural-key constraint is violated, in which case the store raises an
integrity error and the table is left unchanged. -/
def save_row (db : CatalogDB) (q : CatalogQuery) : Except IntegrityError CatalogDB :=
  if natural_key_conflict db q then .error ⟨duplicate_entry_message⟩
  else .ok { db with rows := db.rows.map fun r => if r.id == q.id then q else r }

/-- Embeds `create()` of a new row: appends it, unless the natural-key constraint is
violated. -/
def insert_row (db : CatalogDB) (q : CatalogQuery) : Except IntegrityError CatalogDB :=
  if natural_key_conflict db q then .error ⟨duplicate_entry_message⟩
  else .ok { rows := db.rows ++ [q], next_id := db.next_id + 1 }

/-- The first row occupying the natural key `(h, b)` (under the uniqueness
constraint there is at most one). -/
def findByKey (db : CatalogDB) (h : Nat) (b : Bool) : Option CatalogQuery :=
  db.rows.find? fun r =>
    r.content_filter_hash == h && r.include_exec_ed_2u_courses == b

/-- Is the first list a prefix of the second? -/
def isPrefixList : List Char → List Char → Bool
  | [], _ => true
  | _ :: _, [] => false
  | p :: ps, c :: cs => p == c && isPrefixList ps cs

/-- The suffix following the first occurrence of the marker, if any. -/
def dropAfterMarker (pat : List Char) : List Char → Option (List Char)
  | [] => Option.none
  | c :: cs =>
    if isPrefixList pat (c :: cs) then some ((c :: cs).drop pat.length)
    else dropAfterMarker pat cs

/-- The suffix following the first occurrence of a character, if any. -/
def afterFirstChar (q : Char) : List Char → Option (List Char)
  | [] => Option.none
  | c :: cs => if c == q then some cs else afterFirstChar q cs

/-- The prefix preceding the last occurrence of a character, if any. -/
def beforeLastChar (q : Char) (cs : List Char) : Option (List Char) :=
  (afterFirstChar q cs.reverse).map List.reverse

/-- Embeds `re.search("(?<=for key ')(.*)(?=')", s)`: the text strictly between the
first occurrence of the marker `for key '` and the last closing quote after
it (the capture is greedy, the lookahead requires a following quote); nothing
when the pattern does not occur. -/
def searchForKeyColumn (s : String) : Option String :=
  match dropAfterMarker ("for key ".data ++ [Char.ofNat 39]) s.data with
  | Option.none => Option.none
  | some rest =>
    match beforeLastChar (Char.ofNat 39) rest with
    | Option.none => Option.none
    | some cap => some (String.mk cap)

/-- The f-string rendering of the value bound to `column` in the source:
`re.search` returns a match object (not the captured text), whose rendering
embeds the matched text, or the rendering of `None` when there is no match. -/
def pyMatchRepr : Option String → String
  | Option.none => "None"
  | some m => "<re.Match object; match=" ++ sqm ++ m ++ sqm ++ ">"

/-- Severity of a log record. -/
inductive LogLevel where
  | info
  | error
deriving DecidableEq, Repr

/-- A log record emitted by the resolver. -/
structure LogEntry where
  level : LogLevel
  msg : String
deriving DecidableEq, Repr

/-- The `rest_framework.serializers.ValidationError` raised by the resolver:
the detail mapping key, the detail message, the status code, and the wrapped
integrity error message (`raise ... from exc`). -/
structure ValidationError where
  field : String
  detail : String
  code : Nat
  cause : Option String
deriving DecidableEq, Repr

/-- A resolver failure: either the structured validation failure raised by
the source, or an integrity error propagating uncaught (possible only outside
the uuid-update branch). -/
inductive ResolveError where
  | validation (ve : ValidationError)
  | integrity (e : IntegrityError)
deriving DecidableEq, Repr

/-- Everything observable about one resolver call: the returned row or error,
the table afterwards, the log records emitted, and how many write statements
were attempted (the source never retries a write). -/
structure ResolveOutcome where
  result : Except ResolveError CatalogQuery
  db : CatalogDB
  log : List LogEntry
  write_attempts : Nat
deriving Repr

/-- Python truthiness of the optional uuid argument. -/
def truthyOptStr : Option String → Bool
  | Option.none => false
  | some s => !(s == "")

/-- Embeds `serializers.find_and_modify_catalog_query`: resolves a content filter
(plus optional uuid and title and the exec-ed flag) to a `CatalogQuery` row.
With a truthy uuid that resolves to a row, the row is overwritten in place
and saved, a uniqueness violation becoming a logged `ValidationError`.  With
a truthy uuid that resolves to no row, Django `update_or_create` keyed on
`(content_filter_hash, include_exec_ed_2u_courses)` applies the defaults
(`content_filter`, `uuid`, `title`) to the matched row and saves it, or
creates the row.  With no uuid, Django `get_or_create` returns a matched row
unchanged, or creates the row with the defaults. -/
def find_and_modify_catalog_query (db : CatalogDB) (content_filter : ContentFilter)
    (catalog_query_uuid : Option String) (query_title : Option String)
    (include_exec_ed_2u_courses : Bool) : ResolveOutcome :=
  let hashed_content_filter := get_content_filter_hash content_filter
  if truthyOptStr catalog_query_uuid then
    match get_by_uuid db (catalog_query_uuid.getD "") with
    | some q =>
      let q2 := { q with
        content_filter := content_filter
        title := query_title
        content_filter_hash := hashed_content_filter
        include_exec_ed_2u_courses := include_exec_ed_2u_courses }
      match save_row db q2 with
      | .ok db2 => ⟨.ok q2, db2, [], 1⟩
      | .error exc =>
        let column := searchForKeyColumn exc.msg
        ⟨.error (.validation
            { field := "catalog_query"
              detail := pyMatchRepr column ++ " is not unique"
              code := 422
              cause := some exc.msg }),
         db,
         [⟨.error, "Error occurred while saving catalog query: " ++ exc.msg⟩],
         1⟩
    | Option.none =>
      match findByKey db hashed_content_filter include_exec_ed_2u_courses with
      | some m =>
        let m2 := { m with
          content_filter := content_filter
          uuid := catalog_query_uuid
          title := query_title }
        match save_row db m2 with
        | .ok db2 => ⟨.ok m2, db2, [], 1⟩
        | .error exc => ⟨.error (.integrity exc), db, [], 1⟩
      | Option.none =>
        let newQ : CatalogQuery :=
          { id := db.next_id
            uuid := catalog_query_uuid
            content_filter := content_filter
            content_filter_hash := hashed_content_filter
            title := query_title
            include_exec_ed_2u_courses := include_exec_ed_2u_courses }
        match insert_row db newQ with
        | .ok db2 => ⟨.ok newQ, db2, [], 1⟩
        | .error exc => ⟨.error (.integrity exc), db, [], 1⟩
  else
    match findByKey db hashed_content_filter include_exec_ed_2u_courses with
    | some m => ⟨.ok m, db, [], 0⟩
    | Option.none =>
      let newQ : CatalogQuery :=
        { id := db.next_id
          uuid := Option.none
          content_filter := content_filter
          content_filter_hash := hashed_content_filter
          title := query_title
          include_exec_ed_2u_courses := include_exec_ed_2u_courses }
      match insert_row db newQ with
      | .ok db2 => ⟨.ok newQ, db2, [], 1⟩
      | .error exc => ⟨.error (.integrity exc), db, [], 1⟩

/-
  serializers.py: ContentMetadataSerializer.to_representation.
  The serializer reads an enterprise catalog context (modification times,
  enterprise name, URL and xapi helpers, child course-run records) and a
  ContentMetadata instance, and produces the enriched representation.  Python
  aliasing matters here: `instance.json_metadata.copy()` is a shallow copy, so
  the nested course-run dictionaries stay shared between the copy and the
  original blob, and writing `enrollment_url` into them is visible through
  both.  The embedding therefore returns the representation together with the
  post-call instance blob.
-/

/-- Content type tag for courses (`catalog.constants.COURSE`, not under
`src/`). -/
def COURSE : String := "course"

/-- Content type tag for course runs (`catalog.constants.COURSE_RUN`, not
under `src/`). -/
def COURSE_RUN : String := "courserun"

/-- Content type tag for programs (`catalog.constants.PROGRAM`, not under
`src/`). -/
def PROGRAM : String := "program"

/-- A `ContentMetadata` row: content type tag, content key, modification
time, the raw metadata blob, and the exec-ed-2u marker property. -/
structure ContentMetadataInstance where
  content_type : String
  content_key : String
  modified : Int
  json_metadata : PyVal
  is_exec_ed_2u_course : Bool
deriving Repr

/-- The enterprise catalog context the serializer reads: the catalog and
customer modification times, the enterprise display name, the enrollment-URL
and xapi-activity-id helpers, and the child course-run records of a course
(`ContentMetadata.get_child_records`, not under `src/`, modelled from the
spec as the course-run children owned by the course). -/
structure EnterpriseCatalogCtx where
  modified : Int
  enterprise_name : String
  customer_last_modified_date : Int
  get_content_enrollment_url : ContentMetadataInstance → String
  get_xapi_activity_id : String → PyVal → String
  get_child_records : ContentMetadataInstance → List ContentMetadataInstance

/-- Modelled from the spec: `get_most_recent_modified_time`
(`enterprise_catalog/apps/api/v1/utils.py`, not under `src/`) picks the most
recent of the metadata, catalog and customer modification times. -/
def get_most_recent_modified_time (a b c : Int) : Int :=
  max a (max b c)

/-- Modelled from the spec: `get_enterprise_utm_context`
(`enterprise_catalog/apps/api/v1/utils.py`, not under `src/`) derives UTM
query parameters from the enterprise display name. -/
def get_enterprise_utm_context (enterprise_name : String) : List (String × String) :=
  [("utm_medium", "enterprise"), ("utm_source", enterprise_name)]

/-- Binding update for string-valued association lists (existing key keeps
its position, new key appended). -/
def strDictSet : List (String × String) → String → String → List (String × String)
  | [], k, v => [(k, v)]
  | kv :: rest, k, v =>
    if kv.1 == k then (k, v) :: rest else kv :: strDictSet rest k v

/-- First binding in a string-valued association list. -/
def strDictLookup : List (String × String) → String → Option String
  | [], _ => Option.none
  | kv :: rest, k => if kv.1 == k then some kv.2 else strDictLookup rest k

/-- Split a query-string fragment `k=v` at the first equals sign. -/
def splitParam (s : String) : String × String :=
  match s.splitOn "=" with
  | [] => (s, "")
  | [k] => (k, "")
  | k :: vs => (k, String.intercalate "=" vs)

/-- Modelled from the spec: `update_query_parameters`
(`enterprise_catalog/apps/api/v1/utils.py`, not under `src/`) merges the
given parameters into the query string of the URL; existing parameters are
preserved unless a key collides, in which case the computed value wins. -/
def update_query_parameters (url : String) (params : List (String × String)) : String :=
  let parts := url.splitOn "?"
  let base := parts.headD url
  let existing :=
    (String.intercalate "?" parts.tail).splitOn "&"
      |>.filter (fun s => !(s == ""))
      |>.map splitParam
  let merged := params.foldl (fun acc kv => strDictSet acc kv.1 kv.2) existing
  base ++ "?" ++ String.intercalate "&" (merged.map fun kv => kv.1 ++ "=" ++ kv.2)

/-- Modelled from the spec: `is_any_course_run_active`
(`enterprise_catalog/apps/api/v1/utils.py`, not under `src/`) holds when at
least one serialized course run is currently open or upcoming. -/
def is_any_course_run_active (runs : List PyVal) : Bool :=
  runs.any fun run =>
    match run with
    | .dict kvs =>
      match dictLookup kvs "availability" with
      | some (.str a) => a == "Current" || a == "Upcoming"
      | _ => false
    | _ => false

/-- The loop body of `ContentMetadataSerializer._add_course_run_enrollment_urls`:
each serialized run receives `enrollment_url` from the key-to-URL mapping
built from the child records (a missing mapping entry yields `None`; a run
without a `key` raises, as the source subscripts it directly). -/
def mutateRuns (urls : List (String × String)) : List PyVal → Except PyErr (List PyVal)
  | [] => .ok []
  | run :: rest =>
    match run with
    | .dict rkvs =>
      match dictLookup rkvs "key" with
      | some kv =>
        let url : PyVal :=
          match kv with
          | .str s =>
            match strDictLookup urls s with
            | some u => .str u
            | Option.none => .none
          | _ => .none
        match mutateRuns urls rest with
        | .error e => .error e
        | .ok rs => .ok (PyVal.dict (dictSet rkvs "enrollment_url" url) :: rs)
      | Option.none => .error (.keyError "key")
    | _ => .error .typeError

/-- Embeds `ContentMetadataSerializer._add_course_run_enrollment_urls`: builds the
course-run-key-to-enrollment-URL mapping from the child records of the course
(later children win, as in a Python dict build), then writes the URLs into
the serialized runs. -/
def add_course_run_enrollment_urls (ctx : EnterpriseCatalogCtx)
    (course_instance : ContentMetadataInstance) (runs : List PyVal) :
    Except PyErr (List PyVal) :=
  let urls_by_course_run_key :=
    (ctx.get_child_records course_instance).foldl
      (fun acc r => strDictSet acc r.content_key (ctx.get_content_enrollment_url r)) []
  mutateRuns urls_by_course_run_key runs

/-- Lookup in a dict-valued `PyVal`. -/
def pyDictLookup (v : PyVal) (k : String) : Option PyVal :=
  match v with
  | .dict kvs => dictLookup kvs k
  | _ => Option.none

/-- Embeds `ContentMetadataSerializer.to_representation`: returns the enriched
representation together with the post-call `instance.json_metadata` blob
(which Python aliasing can leave mutated: the shallow copy shares the nested
course-run dictionaries with the original, and the course branch writes into
them).  Statement order follows the source; a non-dict blob or a non-list
`course_runs` value is a raised error, as the corresponding Python operations
would raise. -/
def to_representation (ctx : EnterpriseCatalogCtx) (inst : ContentMetadataInstance) :
    Except PyErr (PyVal × PyVal) :=
  match inst.json_metadata with
  | .dict kvs0 =>
    let marketing_url := (dictLookup kvs0 "marketing_url").getD .none
    let content_key := (dictLookup kvs0 "key").getD .none
    let modified_time := get_most_recent_modified_time inst.modified ctx.modified
      ctx.customer_last_modified_date
    let kvs1 := dictSet kvs0 "content_last_modified" (.int modified_time)
    match (if truthy marketing_url then
             match asStr marketing_url with
             | .error e => .error e
             | .ok mu =>
               .ok (dictSet kvs1 "marketing_url"
                 (.str (update_query_parameters mu
                   (get_enterprise_utm_context ctx.enterprise_name))))
           else .ok kvs1 : Except PyErr (List (String × PyVal))) with
    | .error e => .error e
    | .ok kvs2 =>
      if inst.content_type = COURSE ∨ inst.content_type = COURSE_RUN then
        let kvs3 := dictSet kvs2 "enrollment_url"
          (.str (ctx.get_content_enrollment_url inst))
        let kvs4 := dictSet kvs3 "xapi_activity_id"
          (.str (ctx.get_xapi_activity_id inst.content_type content_key))
        if inst.content_type = COURSE then
          match (dictLookup kvs0 "course_runs").getD (.list []) with
          | .list serialized_course_runs =>
            let kvs5 := dictSet kvs4 "active"
              (.bool (is_any_course_run_active serialized_course_runs))
            if inst.is_exec_ed_2u_course then .ok (.dict kvs5, .dict kvs0)
            else
              match add_course_run_enrollment_urls ctx inst serialized_course_runs with
              | .error e => .error e
              | .ok newRuns =>
                if (dictLookup kvs0 "course_runs").isSome then
                  .ok (.dict (dictSet kvs5 "course_runs" (.list newRuns)),
                       .dict (dictSet kvs0 "course_runs" (.list newRuns)))
                else .ok (.dict kvs5, .dict kvs0)
          | _ => .error .typeError
        else .ok (.dict kvs4, .dict kvs0)
      else if inst.content_type = PROGRAM then
        .ok (.dict (dictSet kvs2 "enrollment_url" .none), .dict kvs0)
      else .ok (.dict kvs2, .dict kvs0)
  | _ => .error .typeError

/-- A concrete enterprise catalog context used to evaluate the serializer on
concrete inputs. -/
def ctxDemo : EnterpriseCatalogCtx :=
  { modified := 50
    enterprise_name := "Acme"
    customer_last_modified_date := 70
    get_content_enrollment_url := fun r => "https://enroll/" ++ r.content_key
    get_xapi_activity_id := fun res k => "xapi:" ++ res ++ ":" ++ pyStrOf k
    get_child_records := fun c =>
      if c.content_key == "c1" then
        [{ content_type := COURSE_RUN, content_key := "r1", modified := 0,
           json_metadata := .dict [], is_exec_ed_2u_course := false }]
      else [] }

/-- A concrete non-exec-ed-2u course instance with one stored course run. -/
def instCourseDemo : ContentMetadataInstance :=
  { content_type := COURSE
    content_key := "c1"
    modified := 60
    json_metadata := .dict [("key", .str "c1"),
                            ("course_runs", .list [.dict [("key", .str "r1")]])]
    is_exec_ed_2u_course := false }

/-- Is the value list of key `k` truthy (present and non-empty)? -/
def bagTruthy (bag : List (String × List String)) (k : String) : Bool :=
  match bagGet bag k with
  | some (_ :: _) => true
  | _ => false

/-- The demonstration content filter. -/
def cfDemo : ContentFilter := [("a", "x")]

/-- A second filter, distinct from `cfDemo` but with the same modelled hash
(the serializations are permutations of each other). -/
def cfDemo2 : ContentFilter := [("x", "a")]

/-- A table holding one row that occupies `cfDemo`'s natural key under an
external uuid `u1` and title `t0`. -/
def dbDemo : CatalogDB :=
  { rows := [{ id := 1, uuid := some "u1", content_filter := cfDemo,
               content_filter_hash := get_content_filter_hash cfDemo,
               title := some "t0", include_exec_ed_2u_courses := false }]
    next_id := 2 }

/-- A table where the uuid `u1` resolves to a row whose rewritten natural key
collides with a second row. -/
def dbDemoConflict : CatalogDB :=
  { rows := [{ id := 1, uuid := some "u1", content_filter := [("b", "y")],
               content_filter_hash := get_content_filter_hash [("b", "y")],
               title := some "tq", include_exec_ed_2u_courses := false },
             { id := 2, uuid := Option.none, content_filter := cfDemo,
               content_filter_hash := get_content_filter_hash cfDemo,
               title := Option.none, include_exec_ed_2u_courses := false }]
    next_id := 3 }

/-- A concrete program instance whose blob already carries an enrollment URL. -/
def instProgramDemo : ContentMetadataInstance :=
  { content_type := PROGRAM
    content_key := "p1"
    modified := 55
    json_metadata := .dict [("key", .str "p1"), ("enrollment_url", .str "old")]
    is_exec_ed_2u_course := false }

/-
  Helper lemmas about the association-list dictionary operations.
-/

theorem dictLookup_dictSet_self (kvs : List (String × PyVal)) (k : String) (v : PyVal) :
    dictLookup (dictSet kvs k v) k = some v := by
  induction kvs with
  | nil => simp [dictSet, dictLookup]
  | cons kv rest ih =>
    by_cases h : kv.1 == k
    · simp [dictSet, dictLookup, h]
    · simp [dictSet, dictLookup, h, ih]

theorem dictLookup_dictSet_ne (kvs : List (String × PyVal)) (k k' : String) (v : PyVal)
    (h : ¬ k' = k) : dictLookup (dictSet kvs k v) k' = dictLookup kvs k' := by
  induction kvs with
  | nil =>
    have : ¬ (k == k') = true := fun hh => h (eq_of_beq hh).symm
    simp [dictSet, dictLookup, this]
  | cons kv rest ih =>
    by_cases hk : kv.1 == k
    · have hk1 : kv.1 = k := eq_of_beq hk
      have : ¬ (k == k') = true := fun hh => h (eq_of_beq hh).symm
      simp [dictSet, dictLookup, hk, hk1, this]
    · simp [dictSet, dictLookup, hk, ih]

theorem bagGet_bagErase_ne (bag : List (String × List String)) (k k' : String)
    (h : ¬ k = k') : bagGet (bagErase bag k') k = bagGet bag k := by
  induction bag with
  | nil => simp [bagErase, bagGet]
  | cons kv rest ih =>
    by_cases hk : kv.1 == k'
    · have hk1 : kv.1 = k' := eq_of_beq hk
      have : ¬ (kv.1 == k) = true := fun hh => h ((eq_of_beq hh).symm.trans hk1)
      simp [bagErase, bagGet, hk, this]
    · by_cases hk2 : kv.1 == k
      · simp [bagErase, bagGet, hk, hk2]
      · simp [bagErase, bagGet, hk, hk2, ih]

theorem bagGet_eq_none_of_not_mem (bag : List (String × List String)) (k : String)
    (h : k ∉ bag.map Prod.fst) : bagGet bag k = Option.none := by
  induction bag with
  | nil => simp [bagGet]
  | cons kv rest ih =>
    simp only [List.map_cons, List.mem_cons] at h
    push_neg at h
    have : ¬ (kv.1 == k) = true := fun hh => h.1 (eq_of_beq hh).symm
    simp [bagGet, this, ih h.2]

theorem bagGet_bagErase_self (bag : List (String × List String)) (k : String)
    (h : (bag.map Prod.fst).Nodup) : bagGet (bagErase bag k) k = Option.none := by
  induction bag with
  | nil => simp [bagErase, bagGet]
  | cons kv rest ih =>
    simp only [List.map_cons, List.nodup_cons] at h
    by_cases hk : kv.1 == k
    · have hk1 : kv.1 = k := eq_of_beq hk
      simp only [bagErase, hk, if_pos]
      exact bagGet_eq_none_of_not_mem rest k (hk1 ▸ h.1)
    · simp [bagErase, bagGet, hk, ih h.2]

/-
  Theorems for the claims.
-/

/-- C9: `facets_to_query` extracts the free-text query from the parameter bag
by preferring key `query`, falling back to `q`, else returning the empty
string, and removes the used key from the bag; in particular
`facets_to_query {query: [abc]}` returns `abc` and removes `query` from the
input, and `facets_to_query {}` returns the empty string. -/
theorem C9_facets_to_query_prefers_query_then_q (bag : List (String × List String)) :
    (∀ v vs, bagGet bag "query" = some (v :: vs) →
      facets_to_query bag = (v, bagErase bag "query") ∧
      ((bag.map Prod.fst).Nodup →
        bagGet (facets_to_query bag).2 "query" = Option.none)) ∧
    (bagTruthy bag "query" = false →
      ∀ v vs, bagGet bag "q" = some (v :: vs) →
      facets_to_query bag = (v, bagErase bag "q") ∧
      ((bag.map Prod.fst).Nodup →
        bagGet (facets_to_query bag).2 "q" = Option.none)) ∧
    (bagTruthy bag "query" = false → bagTruthy bag "q" = false →
      facets_to_query bag = ("", bag)) ∧
    facets_to_query [("query", [("abc" : String)])] = ("abc", []) ∧
    facets_to_query ([] : List (String × List String)) = ("", []) := by
  refine ⟨?_, ?_, ?_, rfl, rfl⟩
  · intro v vs hq
    constructor
    · simp [facets_to_query, hq]
    · intro hnd
      simp [facets_to_query, hq, bagGet_bagErase_self bag "query" hnd]
  · intro hfal v vs hq
    have hqy : ∀ w ws, bagGet bag "query" ≠ some (w :: ws) := by
      intro w ws hc
      simp [bagTruthy, hc] at hfal
    constructor
    · unfold facets_to_query
      match hg : bagGet bag "query" with
      | Option.none => simp [hq]
      | some [] => simp [hq]
      | some (w :: ws) => exact absurd hg (hqy w ws)
    · intro hnd
      unfold facets_to_query
      match hg : bagGet bag "query" with
      | Option.none => simp [hq, bagGet_bagErase_self bag "q" hnd]
      | some [] => simp [hq, bagGet_bagErase_self bag "q" hnd]
      | some (w :: ws) => exact absurd hg (hqy w ws)
  · intro hfal1 hfal2
    have hqy : ∀ w ws, bagGet bag "query" ≠ some (w :: ws) := by
      intro w ws hc
      simp [bagTruthy, hc] at hfal1
    have hqy2 : ∀ w ws, bagGet bag "q" ≠ some (w :: ws) := by
      intro w ws hc
      simp [bagTruthy, hc] at hfal2
    unfold facets_to_query
    match hg : bagGet bag "query" with
    | some (w :: ws) => exact absurd hg (hqy w ws)
    | Option.none =>
      match hg2 : bagGet bag "q" with
      | some (w :: ws) => exact absurd hg2 (hqy2 w ws)
      | Option.none => simp
      | some [] => simp
    | some [] =>
      match hg2 : bagGet bag "q" with
      | some (w :: ws) => exact absurd hg2 (hqy2 w ws)
      | Option.none => simp
      | some [] => simp

/-- C9 witness: the general preference statement applied at the concrete bag
`{query: [abc]}`. -/
theorem C9_witness :
    facets_to_query [("query", ["abc"])] = ("abc", bagErase [("query", ["abc"])] "query") ∧
    bagGet (facets_to_query [("query", ["abc"])]).2 "query" = Option.none := by
  have h := (C9_facets_to_query_prefers_query_then_q [("query", ["abc"])]).1 "abc" [] rfl
  exact ⟨h.1, h.2 (by simp)⟩

/-- C10: a `query` (or `q`) key mapped to a falsy value (such as the empty
list) is not removed from the bag, and extraction falls through to the next
alternative; the falsy key remains among the facets seen afterwards. -/
theorem C10_falsy_query_key_not_removed (bag : List (String × List String)) :
    (bagGet bag "query" = some [] →
      bagGet (facets_to_query bag).2 "query" = some [] ∧
      (∀ v vs, bagGet bag "q" = some (v :: vs) →
        facets_to_query bag = (v, bagErase bag "q"))) ∧
    (bagTruthy bag "query" = false → bagGet bag "q" = some [] →
      facets_to_query bag = ("", bag) ∧
      bagGet (facets_to_query bag).2 "q" = some []) := by
  constructor
  · intro hq
    constructor
    · unfold facets_to_query
      match hg2 : bagGet bag "q" with
      | some (w :: ws) =>
        simp [hq, hg2, bagGet_bagErase_ne bag "query" "q" (by decide), hq]
      | Option.none => simp [hq, hg2]
      | some [] => simp [hq, hg2]
    · intro v vs hg2
      simp [facets_to_query, hq, hg2]
  · intro hfal hq2
    have hqy : ∀ w ws, bagGet bag "query" ≠ some (w :: ws) := by
      intro w ws hc
      simp [bagTruthy, hc] at hfal
    have hres : facets_to_query bag = ("", bag) := by
      unfold facets_to_query
      match hg : bagGet bag "query" with
      | some (w :: ws) => exact absurd hg (hqy w ws)
      | Option.none => simp [hq2]
      | some [] => simp [hq2]
    exact ⟨hres, by simp [hres, hq2]⟩

/-- If no row occupies the natural key, creating a row with that key cannot
conflict. -/
theorem natural_key_conflict_false_of_findByKey_none (db : CatalogDB) (q : CatalogQuery)
    (h : findByKey db q.content_filter_hash q.include_exec_ed_2u_courses = Option.none) :
    natural_key_conflict db q = false := by
  unfold natural_key_conflict
  rw [List.any_eq_false]
  intro r hr
  have hnone := List.find?_eq_none.mp h r hr
  simp only [Bool.and_eq_true, beq_iff_eq, not_and] at hnone
  simp only [Bool.and_eq_true, beq_iff_eq, Bool.not_eq_true', beq_eq_false_iff_ne,
    not_and]
  intro h1 h2
  exact hnone h1.2 h2

/-- C1 counterexample: resolving with the fresh uuid `u2` against a table
whose only row occupies the natural key returns that row with
`content_filter`, `uuid` and `title` overwritten by the call's values — the
matched row is not returned unmodified, so the insert-only-defaulting claim
fails. -/
theorem C1_counterexample :
    (find_and_modify_catalog_query dbDemo cfDemo (some "u2") (some "t1") false).result
      = .ok { id := 1, uuid := some "u2", content_filter := cfDemo,
              content_filter_hash := get_content_filter_hash cfDemo,
              title := some "t1", include_exec_ed_2u_courses := false } ∧
    ¬ (find_and_modify_catalog_query dbDemo cfDemo (some "u2") (some "t1") false).result
      = .ok { id := 1, uuid := some "u1", content_filter := cfDemo,
              content_filter_hash := get_content_filter_hash cfDemo,
              title := some "t0", include_exec_ed_2u_courses := false } := by
  constructor
  · rfl
  · intro hc
    rw [show (find_and_modify_catalog_query dbDemo cfDemo (some "u2") (some "t1") false).result
        = .ok { id := 1, uuid := some "u2", content_filter := cfDemo,
                content_filter_hash := get_content_filter_hash cfDemo,
                title := some "t1", include_exec_ed_2u_courses := false } from rfl] at hc
    injection hc with hc2
    exact absurd (congrArg CatalogQuery.title hc2) (by decide)

/-- C1 (amended): when a `catalog_query_uuid` is supplied but resolves to no
row, the upsert by natural key applies the defaults `content_filter`, `uuid`
and `title` in both cases: a row matched by
`(content_filter_hash, include_exec_ed_2u_courses)` is overwritten with them
and persisted (Django `update_or_create` update semantics), and otherwise a
new row is created from key plus defaults. -/
theorem C1_upsert_applies_defaults_on_reuse_and_create
    (db : CatalogDB) (u : String) (F : ContentFilter) (t : Option String) (B : Bool)
    (hu : ¬ u = "") (hnf : get_by_uuid db u = Option.none) :
    (∀ m, findByKey db (get_content_filter_hash F) B = some m →
      natural_key_conflict db
        { m with content_filter := F, uuid := some u, title := t } = false →
      (find_and_modify_catalog_query db F (some u) t B).result
        = .ok { m with content_filter := F, uuid := some u, title := t } ∧
      (find_and_modify_catalog_query db F (some u) t B).db.rows
        = db.rows.map fun r =>
            if r.id == m.id
            then { m with content_filter := F, uuid := some u, title := t }
            else r) ∧
    (findByKey db (get_content_filter_hash F) B = Option.none →
      (find_and_modify_catalog_query db F (some u) t B).result
        = .ok { id := db.next_id, uuid := some u, content_filter := F,
                content_filter_hash := get_content_filter_hash F, title := t,
                include_exec_ed_2u_courses := B } ∧
      (find_and_modify_catalog_query db F (some u) t B).db.rows
        = db.rows ++ [{ id := db.next_id, uuid := some u, content_filter := F,
                        content_filter_hash := get_content_filter_hash F, title := t,
                        include_exec_ed_2u_courses := B }]) := by
  constructor
  · intro m hm hconf
    constructor <;>
      simp [find_and_modify_catalog_query, truthyOptStr, hu, hnf, hm, save_row, hconf]
  · intro hfk
    have hnc : natural_key_conflict db
        { id := db.next_id, uuid := some u, content_filter := F,
          content_filter_hash := get_content_filter_hash F, title := t,
          include_exec_ed_2u_courses := B } = false :=
      natural_key_conflict_false_of_findByKey_none db _ hfk
    constructor <;>
      simp [find_and_modify_catalog_query, truthyOptStr, hu, hnf, hfk, insert_row, hnc]

/-- C1 witness: the amended statement applied at concrete tables — once with
a natural-key match (the matched row is overwritten with the defaults), once
with none (a fresh row is created from them). -/
theorem C1_witness :
    ((find_and_modify_catalog_query dbDemo cfDemo (some "u2") (some "t1") false).result
      = .ok { id := 1, uuid := some "u2", content_filter := cfDemo,
              content_filter_hash := get_content_filter_hash cfDemo,
              title := some "t1", include_exec_ed_2u_courses := false }) ∧
    ((find_and_modify_catalog_query ⟨[], 0⟩ cfDemo (some "u2") (some "t1") false).result
      = .ok { id := 0, uuid := some "u2", content_filter := cfDemo,
              content_filter_hash := get_content_filter_hash cfDemo,
              title := some "t1", include_exec_ed_2u_courses := false }) := by
  constructor
  · exact ((C1_upsert_applies_defaults_on_reuse_and_create dbDemo "u2" cfDemo
      (some "t1") false (by decide) rfl).1
      { id := 1, uuid := some "u1", content_filter := cfDemo,
        content_filter_hash := get_content_filter_hash cfDemo,
        title := some "t0", include_exec_ed_2u_courses := false } rfl rfl).1
  · exact ((C1_upsert_applies_defaults_on_reuse_and_create ⟨[], 0⟩ "u2" cfDemo
      (some "t1") false (by decide) rfl).2 rfl).1

/-- C2: without a caller-supplied uuid the resolver deduplicates by the
natural key: starting from a table with the key free, a first call creates a
row carrying filter `F`, and a second call — with any filter whose hash
collides with `F`'s and any title — returns that same row, leaves the table
unchanged, and keeps the stored `content_filter` equal to `F`, not the second
filter. -/
theorem C2_get_or_create_is_idempotent_dedup
    (db : CatalogDB) (F : ContentFilter) (t : Option String) (B : Bool)
    (hfresh : findByKey db (get_content_filter_hash F) B = Option.none)
    (F2 : ContentFilter) (t2 : Option String)
    (hcol : get_content_filter_hash F2 = get_content_filter_hash F) :
    ∃ q1,
      (find_and_modify_catalog_query db F Option.none t B).result = .ok q1 ∧
      q1.content_filter = F ∧
      (find_and_modify_catalog_query
        (find_and_modify_catalog_query db F Option.none t B).db
        F2 Option.none t2 B).result = .ok q1 ∧
      (find_and_modify_catalog_query
        (find_and_modify_catalog_query db F Option.none t B).db
        F2 Option.none t2 B).db
        = (find_and_modify_catalog_query db F Option.none t B).db ∧
      (¬ F2 = F → ¬ q1.content_filter = F2) := by
  have hnc : natural_key_conflict db
      { id := db.next_id, uuid := Option.none, content_filter := F,
        content_filter_hash := get_content_filter_hash F, title := t,
        include_exec_ed_2u_courses := B } = false :=
    natural_key_conflict_false_of_findByKey_none db _ hfresh
  have h1 : find_and_modify_catalog_query db F Option.none t B =
      ⟨.ok { id := db.next_id, uuid := Option.none, content_filter := F,
             content_filter_hash := get_content_filter_hash F, title := t,
             include_exec_ed_2u_courses := B },
       ⟨db.rows ++ [{ id := db.next_id, uuid := Option.none, content_filter := F,
                      content_filter_hash := get_content_filter_hash F, title := t,
                      include_exec_ed_2u_courses := B }], db.next_id + 1⟩,
       [], 1⟩ := by
    unfold find_and_modify_catalog_query
    simp [truthyOptStr, hfresh, insert_row, hnc]
  have h2 : findByKey
      ⟨db.rows ++ [{ id := db.next_id, uuid := Option.none, content_filter := F,
                     content_filter_hash := get_content_filter_hash F, title := t,
                     include_exec_ed_2u_courses := B }], db.next_id + 1⟩
      (get_content_filter_hash F2) B
      = some { id := db.next_id, uuid := Option.none, content_filter := F,
               content_filter_hash := get_content_filter_hash F, title := t,
               include_exec_ed_2u_courses := B } := by
    unfold findByKey
    rw [List.find?_append]
    rw [hcol]
    rw [show (List.find? (fun r =>
        r.content_filter_hash == get_content_filter_hash F
          && r.include_exec_ed_2u_courses == B) db.rows) = Option.none from hfresh]
    simp [List.find?_cons]
  refine ⟨{ id := db.next_id, uuid := Option.none, content_filter := F,
            content_filter_hash := get_content_filter_hash F, title := t,
            include_exec_ed_2u_courses := B }, ?_, rfl, ?_, ?_, ?_⟩
  · rw [h1]
  · rw [h1]
    unfold find_and_modify_catalog_query
    simp only [truthyOptStr, Bool.false_eq_true, if_neg, ite_false]
    rw [h2]
  · rw [h1]
    unfold find_and_modify_catalog_query
    simp only [truthyOptStr, Bool.false_eq_true, if_neg, ite_false]
    rw [h2]
  · intro hne hcf
    exact hne hcf.symm

/-- C2 witness: the dedup statement applied at the empty table with the
colliding filters `cfDemo` and `cfDemo2`. -/
theorem C2_witness :
    ∃ q1,
      (find_and_modify_catalog_query ⟨[], 0⟩ cfDemo Option.none (some "T") false).result
        = .ok q1 ∧
      q1.content_filter = cfDemo ∧
      (find_and_modify_catalog_query
        (find_and_modify_catalog_query ⟨[], 0⟩ cfDemo Option.none (some "T") false).db
        cfDemo2 Option.none (some "U") false).result = .ok q1 ∧
      (find_and_modify_catalog_query
        (find_and_modify_catalog_query ⟨[], 0⟩ cfDemo Option.none (some "T") false).db
        cfDemo2 Option.none (some "U") false).db
        = (find_and_modify_catalog_query ⟨[], 0⟩ cfDemo Option.none (some "T") false).db ∧
      (¬ cfDemo2 = cfDemo → ¬ q1.content_filter = cfDemo2) :=
  C2_get_or_create_is_idempotent_dedup ⟨[], 0⟩ cfDemo (some "T") false rfl
    cfDemo2 (some "U") (by decide)

/-- C3: when a row found by uuid is updated and the save hits the natural-key
uniqueness constraint, the resolver raises a `ValidationError`-kind failure
naming the offending unique-constraint column, wrapping the underlying
integrity message, logging at error severity, attempting exactly one write
and leaving the stored table unchanged. -/
theorem C3_uuid_update_integrity_error_is_validation_failure
    (db : CatalogDB) (u : String) (F : ContentFilter) (t : Option String) (B : Bool)
    (q : CatalogQuery)
    (hu : ¬ u = "") (hfound : get_by_uuid db u = some q)
    (hconf : natural_key_conflict db
      { q with content_filter := F, title := t,
               content_filter_hash := get_content_filter_hash F,
               include_exec_ed_2u_courses := B } = true) :
    ∃ ve,
      (find_and_modify_catalog_query db F (some u) t B).result
        = .error (.validation ve) ∧
      ve.field = "catalog_query" ∧
      ve.code = 422 ∧
      ve.cause = some duplicate_entry_message ∧
      ve.detail = pyMatchRepr (some "content_filter_hash") ++ " is not unique" ∧
      (∃ pre post, ve.detail = pre ++ "content_filter_hash" ++ post) ∧
      (find_and_modify_catalog_query db F (some u) t B).db = db ∧
      (find_and_modify_catalog_query db F (some u) t B).log
        = [⟨.error, "Error occurred while saving catalog query: "
            ++ duplicate_entry_message⟩] ∧
      (find_and_modify_catalog_query db F (some u) t B).write_attempts = 1 := by
  have hres : find_and_modify_catalog_query db F (some u) t B =
      ⟨.error (.validation
          { field := "catalog_query"
            detail := pyMatchRepr (searchForKeyColumn duplicate_entry_message)
              ++ " is not unique"
            code := 422
            cause := some duplicate_entry_message }), db,
       [⟨.error, "Error occurred while saving catalog query: "
          ++ duplicate_entry_message⟩], 1⟩ := by
    unfold find_and_modify_catalog_query
    simp [truthyOptStr, hu, hfound, save_row, hconf]
  refine ⟨{ field := "catalog_query"
            detail := pyMatchRepr (searchForKeyColumn duplicate_entry_message)
              ++ " is not unique"
            code := 422
            cause := some duplicate_entry_message },
    ?_, rfl, rfl, rfl, ?_, ?_, ?_, ?_, ?_⟩
  · rw [hres]
  · rw [show searchForKeyColumn duplicate_entry_message
        = some "content_filter_hash" from rfl]
  · exact ⟨"<re.Match object; match=" ++ sqm, sqm ++ "> is not unique", by decide⟩
  · rw [hres]
  · rw [hres]
  · rw [hres]

/-- C3 witness: the failure statement applied at the concrete conflicting
table. -/
theorem C3_witness :
    ∃ ve,
      (find_and_modify_catalog_query dbDemoConflict cfDemo (some "u1")
        (some "tq") false).result = .error (.validation ve) ∧
      ve.field = "catalog_query" ∧
      ve.code = 422 ∧
      ve.cause = some duplicate_entry_message ∧
      ve.detail = pyMatchRepr (some "content_filter_hash") ++ " is not unique" ∧
      (∃ pre post, ve.detail = pre ++ "content_filter_hash" ++ post) ∧
      (find_and_modify_catalog_query dbDemoConflict cfDemo (some "u1")
        (some "tq") false).db = dbDemoConflict ∧
      (find_and_modify_catalog_query dbDemoConflict cfDemo (some "u1")
        (some "tq") false).log
        = [⟨.error, "Error occurred while saving catalog query: "
            ++ duplicate_entry_message⟩] ∧
      (find_and_modify_catalog_query dbDemoConflict cfDemo (some "u1")
        (some "tq") false).write_attempts = 1 :=
  C3_uuid_update_integrity_error_is_validation_failure dbDemoConflict "u1" cfDemo
    (some "tq") false
    { id := 1, uuid := some "u1", content_filter := [("b", "y")],
      content_filter_hash := get_content_filter_hash [("b", "y")],
      title := some "tq", include_exec_ed_2u_courses := false }
    (by decide) rfl (by decide)

/-- C7 counterexample: three field extractions are direct subscripts, not
safe optional lookups — a hit whose `advertised_course_run` lacks
`pacing_type`, or whose `skills`/`partners` entries lack `name`, makes the
projection raise a `KeyError` instead of yielding a null cell. -/
theorem C7_counterexample :
    course_hit_to_row (.dict [("advertised_course_run", .dict [("key", .str "cr")])])
      = .error (.keyError "pacing_type") ∧
    course_hit_to_row (.dict [("skills", .list [.dict []])])
      = .error (.keyError "name") ∧
    program_hit_to_row (.dict [("partners", .list [.dict []])])
      = .error (.keyError "name") :=
  ⟨rfl, rfl, rfl⟩

/-- Interleaving a separator into the empty list yields the empty string. -/
theorem intercalate_nil (s : String) : String.intercalate s [] = "" := rfl

/-- C7 (amended): field extractions in the CSV row projections use safe
optional lookup — for every hit, an absent optional key yields a null (or
empty-default) cell and raises nothing — except for three direct subscripts:
`pacing_type` under a truthy `advertised_course_run`, the `name` of each
`partners` entry, and the `name` of each `skills` entry, which raise
`KeyError` when absent.  Universally over hit dictionaries: with the
list-join keys absent, the course projection succeeds whether
`advertised_course_run` is a present (truthy) dictionary whose `start`,
`end`, `upgrade_deadline` and `key` sub-fields are absent (null cells, the
present `pacing_type` passed through) or is absent altogether; the program
projection succeeds with safely defaulted cells; and `course_run_to_row`
succeeds on every run dictionary whose date keys are absent. -/
theorem C7_amended_safe_optional_lookups :
    (∀ kvs acr pv,
      dictLookup kvs "partners" = Option.none →
      dictLookup kvs "advertised_course_run" = some (.dict acr) →
      dictLookup acr "start" = Option.none →
      dictLookup acr "end" = Option.none →
      dictLookup acr "upgrade_deadline" = Option.none →
      dictLookup acr "pacing_type" = some pv →
      dictLookup kvs "programs" = Option.none →
      dictLookup kvs "program_titles" = Option.none →
      dictLookup kvs "subjects" = Option.none →
      dictLookup kvs "skills" = Option.none →
      course_hit_to_row (.dict kvs) =
        .ok [(dictLookup kvs "title").getD .none,
             .none, .none, .none, .none, .str "", .str "", pv,
             (dictLookup kvs "level_type").getD .none,
             (dictLookup kvs "first_enrollable_paid_seat_price").getD .none,
             (dictLookup kvs "language").getD .none,
             (dictLookup kvs "marketing_url").getD .none,
             .str (strip_tags (pyStrOf
               ((dictLookup kvs "short_description").getD (.str "")))),
             .str "",
             (dictLookup acr "key").getD .none,
             (dictLookup kvs "aggregation_key").getD .none,
             .str "",
             (dictLookup acr "min_effort").getD .none,
             (dictLookup acr "max_effort").getD .none,
             (dictLookup acr "weeks_to_complete").getD .none,
             .str (strip_tags (pyStrOf
               ((dictLookup kvs "outcome").getD (.str "")))),
             .str (strip_tags (pyStrOf
               ((dictLookup kvs "prerequisites_raw").getD (.str ""))))]) ∧
    (∀ kvs,
      dictLookup kvs "partners" = Option.none →
      dictLookup kvs "advertised_course_run" = Option.none →
      dictLookup kvs "programs" = Option.none →
      dictLookup kvs "program_titles" = Option.none →
      dictLookup kvs "subjects" = Option.none →
      dictLookup kvs "skills" = Option.none →
      course_hit_to_row (.dict kvs) =
        .ok [(dictLookup kvs "title").getD .none,
             .none, .none, .none, .none, .str "", .str "", .none,
             (dictLookup kvs "level_type").getD .none,
             (dictLookup kvs "first_enrollable_paid_seat_price").getD .none,
             (dictLookup kvs "language").getD .none,
             (dictLookup kvs "marketing_url").getD .none,
             .str (strip_tags (pyStrOf
               ((dictLookup kvs "short_description").getD (.str "")))),
             .str "",
             .none,
             (dictLookup kvs "aggregation_key").getD .none,
             .str "",
             .none, .none, .none,
             .str (strip_tags (pyStrOf
               ((dictLookup kvs "outcome").getD (.str "")))),
             .str (strip_tags (pyStrOf
               ((dictLookup kvs "prerequisites_raw").getD (.str ""))))]) ∧
    (∀ kvs,
      dictLookup kvs "partners" = Option.none →
      dictLookup kvs "course_keys" = Option.none →
      program_hit_to_row (.dict kvs) =
        .ok [(dictLookup kvs "title").getD .none,
             (dictLookup kvs "program_type").getD .none,
             .str "",
             (dictLookup kvs "subtitle").getD .none,
             .int 0]) ∧
    (∀ ck ct kvs, dictLookup kvs "start" = Option.none →
      dictLookup kvs "end" = Option.none →
      dictLookup kvs "upgrade_deadline" = Option.none →
      course_run_to_row ck ct (.dict kvs) =
        .ok [ct, (dictLookup kvs "key").getD .none, ck,
             (dictLookup kvs "pacing_type").getD .none,
             (dictLookup kvs "availability").getD .none,
             .none, .none, .none,
             (dictLookup kvs "min_effort").getD .none,
             (dictLookup kvs "max_effort").getD .none,
             (dictLookup kvs "weeks_to_complete").getD .none]) := by
  refine ⟨?_, ?_, ?_, ?_⟩
  · intro kvs acr pv hpart hacr hs he hu hpv hprog hpt hsub hsk
    have hne : acr.isEmpty = false := by
      cases acr with
      | nil => simp [dictLookup] at hpv
      | cons a l => rfl
    simp [course_hit_to_row, pyGet, pyGetD, pySub, pyIndex, truthy,
          pyJoinComma, pyIter, allStrs, collectSub, intercalate_nil,
          hpart, hacr, hs, he, hu, hpv, hprog, hpt, hsub, hsk, hne]
  · intro kvs hpart hacr hprog hpt hsub hsk
    simp [course_hit_to_row, pyGet, pyGetD, pySub, pyIndex, truthy,
          pyJoinComma, pyIter, allStrs, collectSub, intercalate_nil,
          dictLookup, hpart, hacr, hprog, hpt, hsub, hsk]
  · intro kvs hpart hck
    simp [program_hit_to_row, pyGet, pyGetD, pyIter, allStrs, collectSub,
          pyLen, intercalate_nil, hpart, hck]
  · intro ck ct kvs h1 h2 h3
    simp [course_run_to_row, pyGet, pyGetD, h1, h2, h3, truthy]

/-- C7 witness: the amended statement applied at concrete hits — a course
hit with extra junk keys and a truthy `advertised_course_run` that lacks the
safe sub-fields, a course hit without one, a program hit, and a run
dictionary with absent date keys. -/
theorem C7_witness :
    course_hit_to_row (.dict [("title", .str "T"), ("junk", .int 7),
        ("advertised_course_run",
          .dict [("pacing_type", .str "self_paced"), ("other", .int 1)])])
      = .ok [.str "T", .none, .none, .none, .none, .str "", .str "",
             .str "self_paced", .none, .none, .none, .none, .str "", .str "",
             .none, .none, .str "", .none, .none, .none, .str "", .str ""] ∧
    course_hit_to_row (.dict [("language", .str "en")])
      = .ok [.none, .none, .none, .none, .none, .str "", .str "", .none, .none,
             .none, .str "en", .none, .str "", .str "", .none, .none, .str "",
             .none, .none, .none, .str "", .str ""] ∧
    program_hit_to_row (.dict [("subtitle", .str "S")])
      = .ok [.none, .none, .str "", .str "S", .int 0] ∧
    course_run_to_row (.str "ck") (.str "ct") (.dict [("key", .str "r1")])
      = .ok [.str "ct", .str "r1", .str "ck", .none, .none, .none, .none, .none,
             .none, .none, .none] := by
  refine ⟨?_, ?_, ?_, ?_⟩
  · simpa using C7_amended_safe_optional_lookups.1
      [("title", .str "T"), ("junk", .int 7),
       ("advertised_course_run",
         .dict [("pacing_type", .str "self_paced"), ("other", .int 1)])]
      [("pacing_type", .str "self_paced"), ("other", .int 1)] (.str "self_paced")
      rfl rfl rfl rfl rfl rfl rfl rfl rfl rfl
  · simpa using C7_amended_safe_optional_lookups.2.1 [("language", .str "en")]
      rfl rfl rfl rfl rfl rfl
  · simpa using C7_amended_safe_optional_lookups.2.2.1 [("subtitle", .str "S")]
      rfl rfl
  · simpa using C7_amended_safe_optional_lookups.2.2.2 (.str "ck") (.str "ct")
      [("key", .str "r1")] rfl rfl rfl

/-- C8 counterexample: a course hit whose single `partners` entry lacks a
`name` makes `course_hit_to_row` raise instead of returning a row, so not
every input hit yields a 22-cell row. -/
theorem C8_counterexample :
    course_hit_to_row (.dict [("partners", .list [.dict [("x", .str "y")]])])
      = .error (.keyError "name") ∧
    ∀ row, course_hit_to_row (.dict [("partners", .list [.dict [("x", .str "y")]])])
      ≠ .ok row := by
  refine ⟨rfl, ?_⟩
  intro row hc
  rw [show course_hit_to_row (.dict [("partners", .list [.dict [("x", .str "y")]])])
      = .error (.keyError "name") from rfl] at hc
  exact Except.noConfusion hc

/-- C8 (amended): whenever a projection returns a row at all (the unsafe
subscripts noted in C7 can instead raise), the row has exactly as many cells
as the corresponding header list: 22 for courses, 5 for programs, 11 for
course runs, regardless of which optional fields are absent. -/
theorem C8_row_lengths_match_headers :
    (∀ hit row, course_hit_to_row hit = .ok row →
      row.length = CSV_COURSE_HEADERS.length) ∧
    (∀ hit row, program_hit_to_row hit = .ok row →
      row.length = CSV_PROGRAM_HEADERS.length) ∧
    (∀ ck ct run row, course_run_to_row ck ct run = .ok row →
      row.length = CSV_COURSE_RUN_HEADERS.length) ∧
    CSV_COURSE_HEADERS.length = 22 ∧ CSV_PROGRAM_HEADERS.length = 5 ∧
    CSV_COURSE_RUN_HEADERS.length = 11 := by
  refine ⟨?_, ?_, ?_, rfl, rfl, rfl⟩
  · intro hit row h
    unfold course_hit_to_row at h
    repeat' split at h
    all_goals first
      | exact Except.noConfusion h
      | (injection h with h2; subst h2; rfl)
  · intro hit row h
    unfold program_hit_to_row at h
    repeat' split at h
    all_goals first
      | exact Except.noConfusion h
      | (injection h with h2; subst h2; rfl)
  · intro ck ct run row h
    unfold course_run_to_row at h
    repeat' split at h
    all_goals first
      | exact Except.noConfusion h
      | (injection h with h2; subst h2; rfl)

/-- C8 witness: the length statements applied at concrete hits. -/
theorem C8_witness :
    (22 : Nat) = CSV_COURSE_HEADERS.length ∧
    (5 : Nat) = CSV_PROGRAM_HEADERS.length ∧
    (11 : Nat) = CSV_COURSE_RUN_HEADERS.length := by
  refine ⟨?_, ?_, ?_⟩
  · exact C8_row_lengths_match_headers.1 (.dict []) _ rfl
  · exact C8_row_lengths_match_headers.2.1 (.dict []) _ rfl
  · exact C8_row_lengths_match_headers.2.2.1 (.str "ck") (.str "ct") (.dict []) _ rfl

/-- C10 witness: with `query` present but empty, extraction falls through to
`q` and `query` survives in the bag. -/
theorem C10_witness :
    bagGet (facets_to_query [("query", []), ("q", ["x"])]).2 "query" = some [] ∧
    facets_to_query [("query", []), ("q", ["x"])]
      = ("x", bagErase [("query", []), ("q", ["x"])] "q") := by
  have h := (C10_falsy_query_key_not_removed [("query", []), ("q", ["x"])]).1 rfl
  exact ⟨h.1, h.2 "x" [] rfl⟩
/-- Characterization of a successful `to_representation` call: the input blob
is a dictionary, the representation is a dictionary whose
`content_last_modified` holds the most recent of the three modification
times, whose `enrollment_url` is forced to null for programs and set from the
catalog context (with an xapi activity id) for courses and course runs, and
the post-call instance blob agrees with the original on every key other than
`course_runs` and is fully unchanged away from the mutating
non-exec-ed-course branch. -/
theorem to_representation_ok_spec (ctx : EnterpriseCatalogCtx)
    (inst : ContentMetadataInstance) (rep post : PyVal)
    (h : to_representation ctx inst = .ok (rep, post)) :
    ∃ kvs0 kvsf,
      inst.json_metadata = .dict kvs0 ∧
      rep = .dict kvsf ∧
      dictLookup kvsf "content_last_modified"
        = some (.int (get_most_recent_modified_time inst.modified ctx.modified
            ctx.customer_last_modified_date)) ∧
      (inst.content_type = PROGRAM →
        dictLookup kvsf "enrollment_url" = some PyVal.none) ∧
      ((inst.content_type = COURSE ∨ inst.content_type = COURSE_RUN) →
        dictLookup kvsf "enrollment_url"
          = some (.str (ctx.get_content_enrollment_url inst)) ∧
        dictLookup kvsf "xapi_activity_id"
          = some (.str (ctx.get_xapi_activity_id inst.content_type
              ((dictLookup kvs0 "key").getD PyVal.none)))) ∧
      ((¬ inst.content_type = COURSE ∨ inst.is_exec_ed_2u_course = true) →
        post = inst.json_metadata) ∧
      (∀ k, ¬ k = "course_runs" → pyDictLookup post k = dictLookup kvs0 k) := by
  rw [to_representation.eq_def] at h
  cases hjm : inst.json_metadata with
  | dict kvs0 =>
    rw [hjm] at h
    simp only [] at h
    refine ⟨kvs0, ?_⟩
    cases hmk : (if truthy ((dictLookup kvs0 "marketing_url").getD PyVal.none) = true then
        match asStr ((dictLookup kvs0 "marketing_url").getD PyVal.none) with
        | Except.error e => Except.error e
        | Except.ok mu =>
          Except.ok (dictSet
            (dictSet kvs0 "content_last_modified"
              (PyVal.int (get_most_recent_modified_time inst.modified ctx.modified
                ctx.customer_last_modified_date)))
            "marketing_url"
            (PyVal.str (update_query_parameters mu
              (get_enterprise_utm_context ctx.enterprise_name))))
      else
        Except.ok (dictSet kvs0 "content_last_modified"
          (PyVal.int (get_most_recent_modified_time inst.modified ctx.modified
            ctx.customer_last_modified_date)))) with
    | error e => rw [hmk] at h; exact Except.noConfusion h
    | ok kvs2 =>
      rw [hmk] at h
      simp only [] at h
      have hk2 : ∀ k, ¬ k = "marketing_url" →
          dictLookup kvs2 k
            = dictLookup (dictSet kvs0 "content_last_modified"
                (PyVal.int (get_most_recent_modified_time inst.modified ctx.modified
                  ctx.customer_last_modified_date))) k := by
        intro k hk
        split at hmk
        · cases hasr : asStr ((dictLookup kvs0 "marketing_url").getD PyVal.none) with
          | error e => rw [hasr] at hmk; exact Except.noConfusion hmk
          | ok mu =>
            rw [hasr] at hmk
            injection hmk with hmk2
            rw [← hmk2]
            exact dictLookup_dictSet_ne _ _ _ _ hk
        · injection hmk with hmk2
          rw [← hmk2]
      by_cases hcc : inst.content_type = COURSE ∨ inst.content_type = COURSE_RUN
      · rw [if_pos hcc] at h
        by_cases hc : inst.content_type = COURSE
        · rw [if_pos hc] at h
          cases hcr : (dictLookup kvs0 "course_runs").getD (PyVal.list []) with
          | list runs =>
            rw [hcr] at h
            simp only [] at h
            by_cases hex : inst.is_exec_ed_2u_course = true
            · rw [if_pos hex] at h
              injection h with h2
              injection h2 with ha hb
              subst ha
              subst hb
              refine ⟨_, rfl, rfl, ?_, ?_, ?_, ?_, ?_⟩
              · simp [dictLookup_dictSet_ne, dictLookup_dictSet_self, hk2]
              · intro hp
                rw [hp] at hc
                exact absurd hc (by decide)
              · intro _
                constructor
                · simp [dictLookup_dictSet_ne, dictLookup_dictSet_self]
                · simp [dictLookup_dictSet_ne, dictLookup_dictSet_self]
              · intro _
                rfl
              · intro k hk
                simp [pyDictLookup]
            · rw [if_neg hex] at h
              cases hmr : add_course_run_enrollment_urls ctx inst runs with
              | error e => rw [hmr] at h; exact Except.noConfusion h
              | ok newRuns =>
                rw [hmr] at h
                simp only [] at h
                by_cases hsome : (dictLookup kvs0 "course_runs").isSome = true
                · rw [if_pos hsome] at h
                  injection h with h2
                  injection h2 with ha hb
                  subst ha
                  subst hb
                  refine ⟨_, rfl, rfl, ?_, ?_, ?_, ?_, ?_⟩
                  · simp [dictLookup_dictSet_ne, dictLookup_dictSet_self, hk2]
                  · intro hp
                    rw [hp] at hc
                    exact absurd hc (by decide)
                  · intro _
                    constructor
                    · simp [dictLookup_dictSet_ne, dictLookup_dictSet_self]
                    · simp [dictLookup_dictSet_ne, dictLookup_dictSet_self]
                  · intro hd
                    rcases hd with hd | hd
                    · exact absurd hc hd
                    · exact absurd hd (by simp [hex])
                  · intro k hk
                    simp [pyDictLookup, dictLookup_dictSet_ne _ _ _ _ hk]
                · rw [if_neg hsome] at h
                  injection h with h2
                  injection h2 with ha hb
                  subst ha
                  subst hb
                  refine ⟨_, rfl, rfl, ?_, ?_, ?_, ?_, ?_⟩
                  · simp [dictLookup_dictSet_ne, dictLookup_dictSet_self, hk2]
                  · intro hp
                    rw [hp] at hc
                    exact absurd hc (by decide)
                  · intro _
                    constructor
                    · simp [dictLookup_dictSet_ne, dictLookup_dictSet_self]
                    · simp [dictLookup_dictSet_ne, dictLookup_dictSet_self]
                  · intro _
                    rfl
                  · intro k hk
                    simp [pyDictLookup]
          | none => rw [hcr] at h; exact Except.noConfusion h
          | bool b => rw [hcr] at h; exact Except.noConfusion h
          | str s => rw [hcr] at h; exact Except.noConfusion h
          | int n => rw [hcr] at h; exact Except.noConfusion h
          | dict kvs => rw [hcr] at h; exact Except.noConfusion h
        · rw [if_neg hc] at h
          injection h with h2
          injection h2 with ha hb
          subst ha
          subst hb
          refine ⟨_, rfl, rfl, ?_, ?_, ?_, ?_, ?_⟩
          · simp [dictLookup_dictSet_ne, dictLookup_dictSet_self, hk2]
          · intro hp
            rcases hcc with hcc | hcc
            · exact absurd hcc hc
            · rw [hp] at hcc
              exact absurd hcc (by decide)
          · intro _
            constructor
            · simp [dictLookup_dictSet_ne, dictLookup_dictSet_self]
            · simp [dictLookup_dictSet_ne, dictLookup_dictSet_self]
          · intro _
            rfl
          · intro k hk
            simp [pyDictLookup]
      · rw [if_neg hcc] at h
        by_cases hp : inst.content_type = PROGRAM
        · rw [if_pos hp] at h
          injection h with h2
          injection h2 with ha hb
          subst ha
          subst hb
          refine ⟨_, rfl, rfl, ?_, ?_, ?_, ?_, ?_⟩
          · simp [dictLookup_dictSet_ne, dictLookup_dictSet_self, hk2]
          · intro _
            simp [dictLookup_dictSet_self]
          · intro hcc2
            exact absurd hcc2 hcc
          · intro _
            rfl
          · intro k hk
            simp [pyDictLookup]
        · rw [if_neg hp] at h
          injection h with h2
          injection h2 with ha hb
          subst ha
          subst hb
          refine ⟨_, rfl, rfl, ?_, ?_, ?_, ?_, ?_⟩
          · simp [dictLookup_dictSet_ne, dictLookup_dictSet_self, hk2]
          · intro hp2
            exact absurd hp2 hp
          · intro hcc2
            exact absurd hcc2 hcc
          · intro _
            rfl
          · intro k hk
            simp [pyDictLookup]
  | none => rw [hjm] at h; exact Except.noConfusion h
  | bool b => rw [hjm] at h; exact Except.noConfusion h
  | str s => rw [hjm] at h; exact Except.noConfusion h
  | int n => rw [hjm] at h; exact Except.noConfusion h
  | list xs => rw [hjm] at h; exact Except.noConfusion h

/-- C4 counterexample: serializing a non-exec-ed-2u course mutates the input
record — the shallow copy shares the nested course-run dictionaries, and the
enrollment-URL write is visible through the original blob, which is therefore
not bit-for-bit unchanged after the call. -/
theorem C4_counterexample :
    to_representation ctxDemo instCourseDemo =
      .ok (.dict [("key", .str "c1"),
                  ("course_runs", .list [.dict [("key", .str "r1"),
                     ("enrollment_url", .str "https://enroll/r1")]]),
                  ("content_last_modified", .int 70),
                  ("enrollment_url", .str "https://enroll/c1"),
                  ("xapi_activity_id", .str "xapi:course:c1"),
                  ("active", .bool false)],
           .dict [("key", .str "c1"),
                  ("course_runs", .list [.dict [("key", .str "r1"),
                     ("enrollment_url", .str "https://enroll/r1")]])]) ∧
    ¬ (PyVal.dict [("key", .str "c1"),
        ("course_runs", .list [.dict [("key", .str "r1"),
           ("enrollment_url", .str "https://enroll/r1")]])])
      = instCourseDemo.json_metadata := by
  constructor
  · rfl
  · intro hc
    simp [instCourseDemo] at hc

/-- C4 (amended): `to_representation` copies the top-level mapping, so the
post-call input blob agrees with the original on every key other than
`course_runs`; for records that are not non-exec-ed-2u courses (programs,
course runs, exec-ed-2u courses, anything else) the input blob is bit-for-bit
unchanged.  Only the nested course-run entries of a non-exec-ed-2u course can
be mutated (they are shared with the returned copy and receive
`enrollment_url` values). -/
theorem C4_amended_mutation_confined_to_course_runs (ctx : EnterpriseCatalogCtx)
    (inst : ContentMetadataInstance) (rep post : PyVal)
    (h : to_representation ctx inst = .ok (rep, post)) :
    ((¬ inst.content_type = COURSE ∨ inst.is_exec_ed_2u_course = true) →
      post = inst.json_metadata) ∧
    (∀ k, ¬ k = "course_runs" →
      pyDictLookup post k = pyDictLookup inst.json_metadata k) := by
  obtain ⟨kvs0, kvsf, hjm, hrep, _, _, _, hunch, hoff⟩ :=
    to_representation_ok_spec ctx inst rep post h
  refine ⟨hunch, ?_⟩
  intro k hk
  rw [hjm]
  simpa [pyDictLookup] using hoff k hk

/-- C4 witness: the amended statement applied at the concrete program
instance, whose blob survives serialization bit-for-bit. -/
theorem C4_witness :
    ∃ rep post, to_representation ctxDemo instProgramDemo = .ok (rep, post) ∧
      post = instProgramDemo.json_metadata := by
  refine ⟨_, _, rfl, ?_⟩
  exact (C4_amended_mutation_confined_to_course_runs ctxDemo instProgramDemo _ _
    rfl).1 (Or.inl (by decide))

/-- C5: the `content_last_modified` field of the enriched representation is
the maximum of the metadata record's modified time, the owning catalog's
modified time and the enterprise customer's last-modified date, for arbitrary
orderings of the three timestamps. -/
theorem C5_content_last_modified_is_max_of_three (ctx : EnterpriseCatalogCtx)
    (inst : ContentMetadataInstance) (rep post : PyVal)
    (h : to_representation ctx inst = .ok (rep, post)) :
    pyDictLookup rep "content_last_modified"
      = some (.int (max inst.modified
          (max ctx.modified ctx.customer_last_modified_date))) := by
  obtain ⟨kvs0, kvsf, hjm, hrep, hclm, _⟩ :=
    to_representation_ok_spec ctx inst rep post h
  rw [hrep]
  simpa [pyDictLookup, get_most_recent_modified_time] using hclm

/-- C5 witness: the maximum statement applied at the concrete course
instance (metadata 60, catalog 50, customer 70). -/
theorem C5_witness :
    ∃ rep post, to_representation ctxDemo instCourseDemo = .ok (rep, post) ∧
      pyDictLookup rep "content_last_modified"
        = some (.int (max instCourseDemo.modified
            (max ctxDemo.modified ctxDemo.customer_last_modified_date))) := by
  refine ⟨_, _, rfl, ?_⟩
  exact C5_content_last_modified_is_max_of_three ctxDemo instCourseDemo _ _ rfl

/-- C6: a program record always gets a null `enrollment_url` in the enriched
representation, while course and course-run records get the non-null
enrollment URL supplied by the catalog context together with an
`xapi_activity_id`. -/
theorem C6_enrollment_url_null_for_programs_set_for_courses
    (ctx : EnterpriseCatalogCtx) (inst : ContentMetadataInstance) (rep post : PyVal)
    (h : to_representation ctx inst = .ok (rep, post)) :
    (inst.content_type = PROGRAM →
      pyDictLookup rep "enrollment_url" = some PyVal.none) ∧
    ((inst.content_type = COURSE ∨ inst.content_type = COURSE_RUN) →
      pyDictLookup rep "enrollment_url"
        = some (.str (ctx.get_content_enrollment_url inst)) ∧
      ¬ pyDictLookup rep "enrollment_url" = some PyVal.none ∧
      ∃ x, pyDictLookup rep "xapi_activity_id" = some (.str x)) := by
  obtain ⟨kvs0, kvsf, hjm, hrep, _, hprog, hcourse, _⟩ :=
    to_representation_ok_spec ctx inst rep post h
  subst hrep
  constructor
  · intro hp
    simpa [pyDictLookup] using hprog hp
  · intro hcc
    obtain ⟨h1, h2⟩ := hcourse hcc
    refine ⟨by simpa [pyDictLookup] using h1, ?_, ?_⟩
    · simp [pyDictLookup, h1]
    · exact ⟨_, by simpa [pyDictLookup] using h2⟩

/-- C6 witness: the statement applied at the concrete program and course
instances. -/
theorem C6_witness :
    (∃ rep post, to_representation ctxDemo instProgramDemo = .ok (rep, post) ∧
      pyDictLookup rep "enrollment_url" = some PyVal.none) ∧
    (∃ rep post, to_representation ctxDemo instCourseDemo = .ok (rep, post) ∧
      pyDictLookup rep "enrollment_url"
        = some (.str (ctxDemo.get_content_enrollment_url instCourseDemo)) ∧
      ∃ x, pyDictLookup rep "xapi_activity_id" = some (.str x)) := by
  constructor
  · refine ⟨_, _, rfl, ?_⟩
    exact (C6_enrollment_url_null_for_programs_set_for_courses ctxDemo
      instProgramDemo _ _ rfl).1 rfl
  · refine ⟨_, _, rfl, ?_, ?_⟩
    · exact ((C6_enrollment_url_null_for_programs_set_for_courses ctxDemo
        instCourseDemo _ _ rfl).2 (Or.inl rfl)).1
    · exact ((C6_enrollment_url_null_for_programs_set_for_courses ctxDemo
        instCourseDemo _ _ rfl).2 (Or.inl rfl)).2.2
